import Mathlib

/-!
Shallow embedding of threeSD's `src/core/ncch/ncch_container.cpp` (the NCCH
container decoder) and proofs about its specification.

The struct layouts (`ncch_container.h`, `common/alignment.h`) are not part of
the provided sources; where a definition depends on them it is modelled from
the spec and marked as such in its doc comment.  The control flow of
`NCCHContainer::Load`, `LoadSectionExeFS`, `ReadProgramId`, `ReadExtdataId`,
`HasExeFS`, `HasExHeader` and `LoadSharedRomFS` is translated directly from
the `.cpp` file.

External collaborators are parameters of the model:
- the key provider (`Key::SetKeyY` / `IsNormalKeyAvailable` / `GetNormalKey`)
  becomes a `KeyProvider` value;
- the CryptoPP counter-mode engine becomes an abstract keystream function
  (`ctrDecrypt`) for byte buffers, and an abstract whole-struct decryptor
  (`CryptoEngine`) for the headers decrypted in place during `Load`;
- the `SDMCFile` byte source becomes a `FileInput` (the outcome of each read
  `Load` performs, in program order) plus a plain byte list for the section
  reads of `LoadSectionExeFS`.
-/

set_option autoImplicit false
set_option maxRecDepth 8192

namespace Core

/-- Result codes of the decoder, as used by `ncch_container.cpp`
(`ResultStatus`); the spec's `NotFound` is `ErrorNotUsed`. -/
inductive ResultStatus where
  | Success
  | Error
  | ErrorInvalidFormat
  | ErrorEncrypted
  | ErrorNotUsed
  deriving DecidableEq, Repr

/-- `MakeMagic` from `ncch_container.cpp`: four bytes packed little-endian. -/
def MakeMagic (a b c d : Nat) : Nat :=
  a ||| (b <<< 8) ||| (c <<< 16) ||| (d <<< 24)

/-- The NCCH magic constant checked by `Load`. -/
def ncchMagic : Nat := MakeMagic 'N'.toNat 'C'.toNat 'C'.toNat 'H'.toNat

/-- `kBlockSize` (media unit size) from `ncch_container.cpp`. -/
def kBlockSize : Nat := 0x200

/-- `kMaxSections` from `ncch_container.cpp`. -/
def kMaxSections : Nat := 8

/-- Modelled from the spec: `sizeof(ExeFs_Header)` (the section-region
directory header); the struct itself lives in the missing `ncch_container.h`.
Only its role as an offset constant matters here. -/
def exefsHeaderSize : Nat := 0x200

/-- Modelled from the spec: the outer NCCH header, `NCCH_Header` from the
missing `ncch_container.h`.  Fields are those the `.cpp` reads: magic,
signature (key-Y source), program/partition identifiers, version, the
crypto flags, and media-unit offsets/sizes.  Multi-byte integers are `Nat`
(values of the little-endian fields), byte arrays are `List Nat`. -/
structure NCCH_Header where
  magic : Nat := 0
  signature : List Nat := []
  program_id : Nat := 0
  partition_id : List Nat := []
  version : Nat := 0
  extended_header_size : Nat := 0
  no_crypto : Bool := false
  fixed_key : Bool := false
  exefs_offset : Nat := 0
  exefs_size : Nat := 0
  romfs_offset : Nat := 0
  deriving DecidableEq, Repr

/-- Modelled from the spec: the storage-info block of the extended header
(`ExHeader_StorageInfo`), with the single legacy extended-save-data id, the
six alternate extdata ids in their fixed index order, and the attribute
byte. -/
structure StorageInfo where
  ext_save_data_id : Nat := 0
  extdata_id0 : Nat := 0
  extdata_id1 : Nat := 0
  extdata_id2 : Nat := 0
  extdata_id3 : Nat := 0
  extdata_id4 : Nat := 0
  extdata_id5 : Nat := 0
  other_attributes : Nat := 0
  deriving DecidableEq, Repr

/-- Modelled from the spec: the system-info block of the extended header;
only the jump identifier is consulted by the `.cpp`. -/
structure SystemInfo where
  jump_id : Nat := 0
  deriving DecidableEq, Repr

/-- Modelled from the spec: the ARM11 local-capabilities block of the
extended header; only the storage info is consulted by the claims. -/
structure Arm11Caps where
  storage_info : StorageInfo := {}
  deriving DecidableEq, Repr

/-- Modelled from the spec: the extended header (`ExHeader_Header`), reduced
to the fields the `.cpp` control flow consults. -/
structure ExHeader_Header where
  system_info : SystemInfo := {}
  arm11_system_local_caps : Arm11Caps := {}
  deriving DecidableEq, Repr

/-- Modelled from the spec: one section descriptor of the section-region
directory (`ExeFs_SectionHeader`): name, offset relative to the payload
start, and byte size. -/
structure ExeFs_SectionHeader where
  name : String := ""
  offset : Nat := 0
  size : Nat := 0
  deriving DecidableEq, Repr

/-- Modelled from the spec: the section-region directory (`ExeFs_Header`),
holding the up-to-8 section descriptors (field `section` in C++; renamed
`sections` because `section` is reserved in Lean). -/
structure ExeFs_Header where
  sections : List ExeFs_SectionHeader := []
  deriving DecidableEq, Repr

/-- The external key provider (`Key::` namespace, out of scope): whether the
Secure1 normal key is available after `SetKeyY`, and the normal key produced
from a key-Y value by `GetNormalKey`. -/
structure KeyProvider where
  available : Bool
  normalKey : List Nat → List Nat

/-- The abstract counter-mode engine used by `Load` to decrypt the two
headers in place (CryptoPP, external): given key and IV, a function on the
parsed struct.  `LoadSectionExeFS` instead uses the byte-level `ctrDecrypt`
model. -/
structure CryptoEngine where
  decExHeader : List Nat → List Nat → ExHeader_Header → ExHeader_Header
  decExeFsHeader : List Nat → List Nat → ExeFs_Header → ExeFs_Header

/-- The outcome of each read `Load` performs against the byte source, in
program order: `none` models a failed/short read. -/
structure FileInput where
  isOpen : Bool
  ncchRead : Option NCCH_Header := none
  exheaderRead : Option ExHeader_Header := none
  exefsRead : Option ExeFs_Header := none

/-- The mutable state of an `NCCHContainer` instance.  Initial values are the
member initializers (modelled from the spec: the header declares the flags
false and the byte arrays zero-initialized). -/
structure NCCHContainer where
  is_loaded : Bool := false
  has_header : Bool := false
  is_encrypted : Bool := false
  has_exheader : Bool := false
  has_exefs : Bool := false
  ncch_header : NCCH_Header := {}
  exheader_header : ExHeader_Header := {}
  exefs_header : ExeFs_Header := {}
  exefs_offset : Nat := 0
  primary_key : List Nat := List.replicate 16 0
  exheader_ctr : List Nat := List.replicate 16 0
  exefs_ctr : List Nat := List.replicate 16 0
  exefs_file_open : Bool := false
  deriving DecidableEq, Repr

/-- Observation record for one `Load` call: the local `failed_to_decrypt`
flag and which in-place decryptions and reads actually happened. -/
structure LoadTrace where
  failed_to_decrypt : Bool := false
  exheaderDecrypted : Bool := false
  exefsHeaderDecrypted : Bool := false
  readPerformed : Bool := false
  deriving DecidableEq, Repr

/-- Write the bytes `vs` into `l` starting at position `i`
(`std::copy` / `std::reverse_copy` into a fixed array). -/
def overwriteAt (l : List Nat) (i : Nat) (vs : List Nat) : List Nat :=
  l.take i ++ vs ++ l.drop (i + vs.length)

/-- `u32ToBEArray` from `Load`: the four big-endian bytes of a 32-bit
value. -/
def u32ToBEArray (value : Nat) : List Nat :=
  [value >>> 24 % 256, value >>> 16 % 256, value >>> 8 % 256, value % 256]

/-- IV derivation of `Load` (lines 91-123 of `ncch_container.cpp`): from the
format version, the 8 partition-identifier bytes and the section-region
media-unit offset, produce the extended-header IV and the section-region IV;
`none` is the unknown-version branch (which sets `failed_to_decrypt` and
leaves the zero-initialized IVs unchanged).  The version-1 section-region
offset is the u32 product `exefs_offset * kBlockSize` (wrapping). -/
def deriveCtrs (version : Nat) (partition_id : List Nat) (exefs_offset : Nat) :
    Option (List Nat × List Nat) :=
  if version = 0 ∨ version = 2 then
    let base := overwriteAt (List.replicate 16 0) 0 partition_id.reverse
    some (base.set 8 1, base.set 8 2)
  else if version = 1 then
    let base := overwriteAt (List.replicate 16 0) 0 partition_id
    some (overwriteAt base 12 (u32ToBEArray 0x200),
          overwriteAt base 12 (u32ToBEArray (exefs_offset * kBlockSize % 2 ^ 32)))
  else
    none

/-- Primary-key resolution of `Load` (lines 71-86): all zero for fixed-key
crypto, otherwise the Secure1 normal key derived from the low 16 signature
bytes (`GetNormalKey` is called even when the key is unavailable). -/
def ncchKey (self : NCCHContainer) (kp : KeyProvider) : List Nat :=
  if self.ncch_header.fixed_key then List.replicate 16 0
  else kp.normalKey (self.ncch_header.signature.take 16)

/-- Step 2/3 of `Load` (lines 66-127): determine the encryption mode, the
primary key and the IVs.  Returns the updated state and the local
`failed_to_decrypt` flag (true when the Secure1 key is missing or the
version is unknown). -/
def loadStep2 (self : NCCHContainer) (kp : KeyProvider) : NCCHContainer × Bool :=
  if self.ncch_header.no_crypto then
    ({ self with is_encrypted := false }, false)
  else
    match deriveCtrs self.ncch_header.version self.ncch_header.partition_id
        self.ncch_header.exefs_offset with
    | some ctrs =>
        ({ self with is_encrypted := true, primary_key := ncchKey self kp,
                     exheader_ctr := ctrs.1, exefs_ctr := ctrs.2 },
         !self.ncch_header.fixed_key && !kp.available)
    | none =>
        ({ self with is_encrypted := true, primary_key := ncchKey self kp }, true)

/-- Final step of `Load` (lines 208-209): mark loaded and return success. -/
def finishLoad (self : NCCHContainer) (tr : LoadTrace) :
    ResultStatus × NCCHContainer × LoadTrace :=
  (.Success, { self with is_loaded := true }, tr)

/-- Step 5 of `Load` (lines 186-205): if a section region is declared, record
its byte offset, read its directory header, decrypt it in place iff the
container is (still) marked encrypted, and open the section file handle. -/
def loadExeFsStep (self : NCCHContainer) (f : FileInput) (eng : CryptoEngine)
    (tr : LoadTrace) : ResultStatus × NCCHContainer × LoadTrace :=
  if self.ncch_header.exefs_size ≠ 0 then
    match f.exefsRead with
    | none =>
        (.Error, { self with exefs_offset := self.ncch_header.exefs_offset * kBlockSize }, tr)
    | some eh =>
        if self.is_encrypted then
          finishLoad
            { self with exefs_offset := self.ncch_header.exefs_offset * kBlockSize,
                        exefs_header := eng.decExeFsHeader self.primary_key self.exefs_ctr eh,
                        exefs_file_open := true, has_exefs := true }
            { tr with exefsHeaderDecrypted := true }
        else
          finishLoad
            { self with exefs_offset := self.ncch_header.exefs_offset * kBlockSize,
                        exefs_header := eh, exefs_file_open := true, has_exefs := true }
            tr
  else
    finishLoad self tr

/-- Step 4 of `Load` (lines 130-183): if an extended header is declared, read
it; when marked encrypted, first compare the raw jump identifier's low 32
bits against the program identifier's low 32 bits (self-correction to
plaintext on match), otherwise fail with `ErrorEncrypted` if a pending
decrypt failure was recorded, otherwise decrypt the header in place. -/
def loadExheaderStep (self : NCCHContainer) (f : FileInput) (eng : CryptoEngine)
    (failed_to_decrypt : Bool) (tr : LoadTrace) : ResultStatus × NCCHContainer × LoadTrace :=
  if self.ncch_header.extended_header_size ≠ 0 then
    match f.exheaderRead with
    | none => (.Error, self, tr)
    | some exh =>
        if self.is_encrypted then
          if exh.system_info.jump_id &&& 0xFFFFFFFF =
              self.ncch_header.program_id &&& 0xFFFFFFFF then
            loadExeFsStep
              { self with exheader_header := exh, is_encrypted := false, has_exheader := true }
              f eng tr
          else if failed_to_decrypt then
            (.ErrorEncrypted, { self with exheader_header := exh }, tr)
          else
            loadExeFsStep
              { self with exheader_header := eng.decExHeader self.primary_key self.exheader_ctr exh,
                          has_exheader := true }
              f eng { tr with exheaderDecrypted := true }
        else
          loadExeFsStep { self with exheader_header := exh, has_exheader := true } f eng tr
  else
    loadExeFsStep self f eng tr

/-- `NCCHContainer::Load` (lines 49-210): short-circuit when already loaded;
when the file is not open, skip all parsing and still succeed; otherwise read
and validate the outer header, run steps 2-5, and mark loaded. -/
def Load (self : NCCHContainer) (f : FileInput) (kp : KeyProvider)
    (eng : CryptoEngine) : ResultStatus × NCCHContainer × LoadTrace :=
  if self.is_loaded then
    (.Success, self, {})
  else if f.isOpen then
    match f.ncchRead with
    | none => (.Error, self, { readPerformed := true })
    | some hdr =>
        if hdr.magic ≠ ncchMagic then
          (.ErrorInvalidFormat, { self with ncch_header := hdr }, { readPerformed := true })
        else
          loadExheaderStep (loadStep2 { self with ncch_header := hdr, has_header := true } kp).1
            f eng (loadStep2 { self with ncch_header := hdr, has_header := true } kp).2
            { readPerformed := true,
              failed_to_decrypt := (loadStep2 { self with ncch_header := hdr, has_header := true } kp).2 }
  else
    finishLoad self {}

/-- Read `len` bytes at byte offset `off` from an in-memory byte source;
`none` models a short read (`ReadBytes` returning fewer bytes than asked). -/
def fileReadAt (data : List Nat) (off len : Nat) : Option (List Nat) :=
  if off + len ≤ data.length then some ((data.drop off).take len) else none

/-- Counter-mode decryption of a byte buffer, starting at keystream byte
offset `streamOff`: XOR each byte with the keystream byte at its logical
position.  `ks key iv i` is the abstract keystream (CryptoPP AES-CTR is
external); `Decryption(...).Seek(n)` then `ProcessData` is exactly
`ctrDecrypt ks key iv n`. -/
def ctrDecrypt (ks : List Nat → List Nat → Nat → Nat) (key iv : List Nat)
    (streamOff : Nat) (buf : List Nat) : List Nat :=
  buf.mapIdx fun i b => b ^^^ ks key iv (streamOff + i)

/-- `NCCHContainer::LoadSectionExeFS` (lines 212-247): load first, require
the section file handle, scan the up-to-8 descriptors in array order for the
first exact name match, read `size` bytes at
`section.offset + exefs_offset + exefsHeaderSize`, and decrypt them with the
section-region IV at keystream offset `section.offset + exefsHeaderSize` iff
the container is encrypted.  `exefsData` is the byte content backing the
section file handle. -/
def LoadSectionExeFS (ks : List Nat → List Nat → Nat → Nat)
    (self : NCCHContainer) (f : FileInput) (kp : KeyProvider) (eng : CryptoEngine)
    (exefsData : List Nat) (name : String) : ResultStatus × NCCHContainer × List Nat :=
  let r := Load self f kp eng
  let s := r.2.1
  if r.1 ≠ .Success then (r.1, s, [])
  else if !s.exefs_file_open then (.Error, s, [])
  else
    match (s.exefs_header.sections.take kMaxSections).find? (fun sec => sec.name == name) with
    | none => (.ErrorNotUsed, s, [])
    | some sec =>
        match fileReadAt exefsData (sec.offset + s.exefs_offset + exefsHeaderSize) sec.size with
        | none => (.Error, s, [])
        | some buf =>
            if s.is_encrypted then
              (.Success, s,
               ctrDecrypt ks s.primary_key s.exefs_ctr (sec.offset + exefsHeaderSize) buf)
            else
              (.Success, s, buf)

/-- `NCCHContainer::ReadProgramId` (lines 249-259); the out-parameter is
threaded in and returned so that "unchanged on failure" is expressible. -/
def ReadProgramId (self : NCCHContainer) (f : FileInput) (kp : KeyProvider)
    (eng : CryptoEngine) (program_id : Nat) : ResultStatus × NCCHContainer × Nat :=
  let r := Load self f kp eng
  let s := r.2.1
  if r.1 ≠ .Success then (r.1, s, program_id)
  else if !s.has_header then (.ErrorNotUsed, s, program_id)
  else (.Success, s, s.ncch_header.program_id)

/-- `NCCHContainer::ReadExtdataId` (lines 261-294): after a successful load
with an extended header, branch on `other_attributes >> 1`; if non-zero, the
first non-zero of the six alternate extdata ids (in index order) wins, with
`ErrorNotUsed` when all six are zero; otherwise the legacy
`ext_save_data_id` is returned unconditionally.  The out-parameter is
threaded in and returned. -/
def ReadExtdataId (self : NCCHContainer) (f : FileInput) (kp : KeyProvider)
    (eng : CryptoEngine) (extdata_id : Nat) : ResultStatus × NCCHContainer × Nat :=
  let r := Load self f kp eng
  let s := r.2.1
  if r.1 ≠ .Success then (r.1, s, extdata_id)
  else if !s.has_exheader then (.ErrorNotUsed, s, extdata_id)
  else
    let si := s.exheader_header.arm11_system_local_caps.storage_info
    if si.other_attributes >>> 1 ≠ 0 then
      let ids := [si.extdata_id0, si.extdata_id1, si.extdata_id2,
                  si.extdata_id3, si.extdata_id4, si.extdata_id5]
      match ids.find? (fun id => id != 0) with
      | some id => (.Success, s, id)
      | none => (.ErrorNotUsed, s, extdata_id)
    else
      (.Success, s, si.ext_save_data_id)

/-- `NCCHContainer::HasExeFS` (lines 296-302). -/
def HasExeFS (self : NCCHContainer) (f : FileInput) (kp : KeyProvider)
    (eng : CryptoEngine) : Bool :=
  let r := Load self f kp eng
  if r.1 ≠ .Success then false else r.2.1.has_exefs

/-- `NCCHContainer::HasExHeader` (lines 304-310). -/
def HasExHeader (self : NCCHContainer) (f : FileInput) (kp : KeyProvider)
    (eng : CryptoEngine) : Bool :=
  let r := Load self f kp eng
  if r.1 ≠ .Success then false else r.2.1.has_exheader

/-- One level descriptor of the integrity-tree (IVFC) header.  Modelled from
the spec for the field layout (the struct is in the missing header): a byte
size and a block-size exponent (plus an offset, unused here); 24 bytes each,
matching the `static_assert` that the whole header is 0x60 bytes. -/
structure LevelDescriptor where
  offset : Nat := 0
  size : Nat := 0
  block_size : Nat := 0
  deriving DecidableEq, Repr

/-- `RomFSIVFCHeader` from `ncch_container.cpp` (lines 313-319): magic,
version, master-hash byte count and three level descriptors. -/
structure RomFSIVFCHeader where
  magic : Nat := 0
  version : Nat := 0
  master_hash_size : Nat := 0
  levels : List LevelDescriptor := []
  deriving DecidableEq, Repr

/-- The IVFC magic constant checked by `LoadSharedRomFS`. -/
def ivfcMagic : Nat := MakeMagic 'I'.toNat 'V'.toNat 'F'.toNat 'C'.toNat

/-- `sizeof(RomFSIVFCHeader)`: 0x60 by the `static_assert` in the source. -/
def ivfcHeaderSize : Nat := 0x60

/-- Modelled from the spec: `sizeof(NCCH_Header)` (the outer header is one
fixed 0x200-byte block; the struct is in the missing header file). -/
def ncchHeaderSize : Nat := 0x200

/-- Modelled from the spec: `Common::AlignUp` (from the missing
`common/alignment.h`) rounds `value` up to the next multiple of `size`. -/
def alignUp (value sz : Nat) : Nat := (value + sz - 1) / sz * sz

/-- `LoadSharedRomFS` (lines 323-346): pure function over an in-memory
container image.  The byte-level decodes of the two headers depend on
layouts outside the provided sources, so they are parameters
(`parseNCCH` over the first `ncchHeaderSize` bytes, `parseIVFC` over the
`ivfcHeaderSize` bytes at the nested-image offset).  The `ASSERT_MSG`
aborts are modelled as `none`.  `std::pow(2, block_size)` is `2 ^
block_size` (exact for the representable exponents). -/
def LoadSharedRomFS (parseNCCH : List Nat → NCCH_Header)
    (parseIVFC : List Nat → RomFSIVFCHeader) (data : List Nat) : Option (List Nat) :=
  if ncchHeaderSize ≤ data.length then
    let header := parseNCCH (data.take ncchHeaderSize)
    let offset := header.romfs_offset * 0x200
    if offset + ivfcHeaderSize ≤ data.length then
      let ivfc := parseIVFC ((data.drop offset).take ivfcHeaderSize)
      if ivfc.magic = ivfcMagic ∧ ivfc.version = 0x10000 then
        let lvl2 := ivfc.levels.getD 2 {}
        let data_offset :=
          offset + alignUp (ivfcHeaderSize + ivfc.master_hash_size) (2 ^ lvl2.block_size)
        if data_offset + lvl2.size ≤ data.length then
          some ((data.drop data_offset).take lvl2.size)
        else none
      else none
    else none
  else none

/-- The identity key provider used by concrete witnesses. -/
def idKeyProvider : KeyProvider := ⟨true, fun _ => List.replicate 16 0⟩

/-- The identity crypto engine used by concrete witnesses. -/
def idCryptoEngine : CryptoEngine := ⟨fun _ _ x => x, fun _ _ x => x⟩

/-- A byte source that failed to open, used by concrete witnesses. -/
def closedFile : FileInput := { isOpen := false }

/-! Helper lemmas shared by the claim theorems. -/

theorem finishLoad_fst (self : NCCHContainer) (tr : LoadTrace) :
    (finishLoad self tr).1 = .Success := rfl

theorem finishLoad_is_loaded (self : NCCHContainer) (tr : LoadTrace) :
    (finishLoad self tr).2.1.is_loaded = true := rfl

theorem loadExeFsStep_success_is_loaded (self : NCCHContainer) (f : FileInput)
    (eng : CryptoEngine) (tr : LoadTrace) :
    (loadExeFsStep self f eng tr).1 = .Success →
    (loadExeFsStep self f eng tr).2.1.is_loaded = true := by
  unfold loadExeFsStep
  split
  · split
    · intro h; exact absurd h (by simp)
    · split <;> (intro h; rfl)
  · intro h; rfl

theorem loadExheaderStep_success_is_loaded (self : NCCHContainer) (f : FileInput)
    (eng : CryptoEngine) (failed : Bool) (tr : LoadTrace) :
    (loadExheaderStep self f eng failed tr).1 = .Success →
    (loadExheaderStep self f eng failed tr).2.1.is_loaded = true := by
  unfold loadExheaderStep
  split
  · split
    · intro h; exact absurd h (by simp)
    · split
      · split
        · exact loadExeFsStep_success_is_loaded _ _ _ _
        · split
          · intro h; exact absurd h (by simp)
          · exact loadExeFsStep_success_is_loaded _ _ _ _
      · exact loadExeFsStep_success_is_loaded _ _ _ _
  · exact loadExeFsStep_success_is_loaded _ _ _ _

theorem load_success_is_loaded (self : NCCHContainer) (f : FileInput)
    (kp : KeyProvider) (eng : CryptoEngine)
    (h : (Load self f kp eng).1 = .Success) :
    (Load self f kp eng).2.1.is_loaded = true := by
  revert h
  unfold Load
  split
  · intro h; simpa using ‹self.is_loaded = true›
  · split
    · split
      · intro h; exact absurd h (by simp)
      · split
        · intro h; exact absurd h (by simp)
        · exact loadExheaderStep_success_is_loaded _ _ _ _ _
    · intro h; rfl

theorem loadStep2_ncch (self : NCCHContainer) (kp : KeyProvider) :
    (loadStep2 self kp).1.ncch_header = self.ncch_header := by
  unfold loadStep2
  split
  · rfl
  · split <;> rfl

theorem loadStep2_is_encrypted (self : NCCHContainer) (kp : KeyProvider)
    (h : self.ncch_header.no_crypto = false) :
    (loadStep2 self kp).1.is_encrypted = true := by
  unfold loadStep2
  simp only [h, Bool.false_eq_true, if_false]
  split <;> rfl

theorem loadExeFsStep_is_encrypted (self : NCCHContainer) (f : FileInput)
    (eng : CryptoEngine) (tr : LoadTrace) :
    (loadExeFsStep self f eng tr).2.1.is_encrypted = self.is_encrypted := by
  unfold loadExeFsStep finishLoad
  split
  · split
    · rfl
    · split <;> rfl
  · rfl

theorem loadExeFsStep_exefsDec (self : NCCHContainer) (f : FileInput)
    (eng : CryptoEngine) (tr : LoadTrace) (h : self.is_encrypted = false) :
    (loadExeFsStep self f eng tr).2.2.exefsHeaderDecrypted = tr.exefsHeaderDecrypted := by
  unfold loadExeFsStep finishLoad
  split
  · split
    · rfl
    · split
      · next henc => rw [h] at henc; simp at henc
      · rfl
  · rfl

theorem loadExheaderStep_self_correct (self : NCCHContainer) (f : FileInput)
    (eng : CryptoEngine) (failed : Bool) (tr : LoadTrace) (exh : ExHeader_Header)
    (henc : self.is_encrypted = true)
    (hsize : self.ncch_header.extended_header_size ≠ 0)
    (hread : f.exheaderRead = some exh)
    (hjump : exh.system_info.jump_id &&& 0xFFFFFFFF =
      self.ncch_header.program_id &&& 0xFFFFFFFF)
    (htr : tr.exefsHeaderDecrypted = false) :
    (loadExheaderStep self f eng failed tr).2.1.is_encrypted = false ∧
    (loadExheaderStep self f eng failed tr).2.2.exefsHeaderDecrypted = false := by
  unfold loadExheaderStep
  rw [hread]
  simp only [hsize, henc, hjump, if_true, ite_true, ne_eq, not_false_eq_true]
  constructor
  · rw [loadExeFsStep_is_encrypted]
  · rw [loadExeFsStep_exefsDec] <;> simp [htr]

/-- C1: when the outer header is marked encrypted and declares an extended
header, and the (raw) extended header's jump identifier matches the program
identifier in the low 32 bits, `Load` reclassifies the container as
plaintext before the section region is processed: the final state has
`is_encrypted = false` (which `LoadSectionExeFS` consults for later section
reads) and the section-region directory header was not decrypted. -/
theorem load_self_correction (self : NCCHContainer) (f : FileInput)
    (kp : KeyProvider) (eng : CryptoEngine) (hdr : NCCH_Header) (exh : ExHeader_Header)
    (hload : self.is_loaded = false) (hopen : f.isOpen = true)
    (hread : f.ncchRead = some hdr) (hmagic : hdr.magic = ncchMagic)
    (hcrypto : hdr.no_crypto = false) (hexsize : hdr.extended_header_size ≠ 0)
    (hexread : f.exheaderRead = some exh)
    (hjump : exh.system_info.jump_id &&& 0xFFFFFFFF = hdr.program_id &&& 0xFFFFFFFF) :
    (Load self f kp eng).2.1.is_encrypted = false ∧
    (Load self f kp eng).2.2.exefsHeaderDecrypted = false := by
  unfold Load
  rw [hload, hopen, hread]
  simp only [hmagic, ne_eq, not_true_eq_false, if_false, Bool.false_eq_true, ite_false, ite_true]
  refine loadExheaderStep_self_correct _ f eng _ _ exh ?_ ?_ hexread ?_ rfl
  · exact loadStep2_is_encrypted _ kp hcrypto
  · rw [loadStep2_ncch]; exact hexsize
  · rw [loadStep2_ncch]; exact hjump

/-- Concrete header for the C1 witness: encrypted flag set, extended header
declared, jump identifier equal to the program identifier in the low 32
bits. -/
def selfCorrHdr : NCCH_Header :=
  { magic := ncchMagic, program_id := 0x123456785, partition_id := [1, 2, 3, 4, 5, 6, 7, 8],
    version := 0, extended_header_size := 1, no_crypto := false, fixed_key := true }

/-- Concrete extended header for the C1 witness (raw jump identifier agrees
with the program identifier modulo 2^32). -/
def selfCorrExh : ExHeader_Header := { system_info := { jump_id := 0xAB23456785 } }

/-- Concrete byte source for the C1 witness. -/
def selfCorrFile : FileInput :=
  { isOpen := true, ncchRead := some selfCorrHdr, exheaderRead := some selfCorrExh }

/-- Witness for C1 at a concrete container. -/
theorem load_self_correction_witness :
    (Load {} selfCorrFile idKeyProvider idCryptoEngine).2.1.is_encrypted = false ∧
    (Load {} selfCorrFile idKeyProvider idCryptoEngine).2.2.exefsHeaderDecrypted = false :=
  load_self_correction {} selfCorrFile idKeyProvider idCryptoEngine selfCorrHdr selfCorrExh
    rfl rfl rfl (by decide) rfl (by decide) rfl (by decide)

theorem deriveCtrs_unknown (version : Nat) (pid : List Nat) (off : Nat)
    (h0 : version ≠ 0) (h1 : version ≠ 1) (h2 : version ≠ 2) :
    deriveCtrs version pid off = none := by
  unfold deriveCtrs
  simp [h0, h1, h2]

theorem loadStep2_failed (self : NCCHContainer) (kp : KeyProvider)
    (hc : self.ncch_header.no_crypto = false)
    (h : (self.ncch_header.fixed_key = false ∧ kp.available = false) ∨
         (self.ncch_header.version ≠ 0 ∧ self.ncch_header.version ≠ 1 ∧
          self.ncch_header.version ≠ 2)) :
    (loadStep2 self kp).2 = true := by
  unfold loadStep2
  simp only [hc, Bool.false_eq_true, if_false]
  rcases h with ⟨hf, ha⟩ | ⟨h0, h1, h2⟩
  · split
    · simp [hf, ha]
    · rfl
  · rw [deriveCtrs_unknown _ _ _ h0 h1 h2]

theorem loadStep2_not_encrypted (self : NCCHContainer) (kp : KeyProvider)
    (h : self.ncch_header.no_crypto = true) :
    (loadStep2 self kp).1.is_encrypted = false := by
  unfold loadStep2
  simp [h]

theorem loadExheaderStep_encrypted_no_key (self : NCCHContainer) (f : FileInput)
    (eng : CryptoEngine) (tr : LoadTrace) (exh : ExHeader_Header)
    (henc : self.is_encrypted = true)
    (hsize : self.ncch_header.extended_header_size ≠ 0)
    (hread : f.exheaderRead = some exh)
    (hjump : exh.system_info.jump_id &&& 0xFFFFFFFF ≠
      self.ncch_header.program_id &&& 0xFFFFFFFF) :
    loadExheaderStep self f eng true tr =
      (.ErrorEncrypted, { self with exheader_header := exh }, tr) := by
  unfold loadExheaderStep
  rw [hread]
  simp [hsize, henc, hjump]

/-- Concrete header for the C2 counterexample: marked encrypted, not
fixed-key (so the missing Secure1 key records a pending decrypt failure),
extended header declared, jump identifier matching the program identifier. -/
def encNoKeyHdr : NCCH_Header :=
  { magic := ncchMagic, program_id := 5, partition_id := [1, 2, 3, 4, 5, 6, 7, 8],
    version := 0, extended_header_size := 1, no_crypto := false, fixed_key := false }

/-- Concrete extended header for the C2 counterexample: raw jump identifier
matches the program identifier, triggering self-correction. -/
def encNoKeyExh : ExHeader_Header := { system_info := { jump_id := 5 } }

/-- Concrete byte source for the C2 counterexample. -/
def encNoKeyFile : FileInput :=
  { isOpen := true, ncchRead := some encNoKeyHdr, exheaderRead := some encNoKeyExh }

/-- A key provider whose Secure1 key is unavailable. -/
def noKeyProvider : KeyProvider := ⟨false, fun _ => List.replicate 16 0⟩

/-- Counterexample to C2 as stated: an encrypted container with an extended
header and a recorded pending decrypt failure (missing Secure1 key) for
which `Load` nevertheless returns `Success` — the self-correction comparison
is performed first, and because the raw jump identifier matches the program
identifier the container is reclassified as plaintext instead of failing
with `ErrorEncrypted`. -/
theorem load_encrypted_no_key_counterexample :
    encNoKeyHdr.no_crypto = false ∧ encNoKeyHdr.extended_header_size ≠ 0 ∧
    (Load {} encNoKeyFile noKeyProvider idCryptoEngine).2.2.failed_to_decrypt = true ∧
    (Load {} encNoKeyFile noKeyProvider idCryptoEngine).1 = .Success ∧
    (Load {} encNoKeyFile noKeyProvider idCryptoEngine).1 ≠ .ErrorEncrypted := by
  decide

/-- C2 amended: for an encrypted container with an extended header and a
pending decrypt failure (missing Secure1 key or unsupported version),
`Load` fails with `ErrorEncrypted` before performing extended-header
decryption, provided the self-correction comparison does not match (when it
matches, the container is reclassified as plaintext and no error is
raised). -/
theorem load_encrypted_no_key (self : NCCHContainer) (f : FileInput)
    (kp : KeyProvider) (eng : CryptoEngine) (hdr : NCCH_Header) (exh : ExHeader_Header)
    (hload : self.is_loaded = false) (hopen : f.isOpen = true)
    (hread : f.ncchRead = some hdr) (hmagic : hdr.magic = ncchMagic)
    (hcrypto : hdr.no_crypto = false) (hexsize : hdr.extended_header_size ≠ 0)
    (hexread : f.exheaderRead = some exh)
    (hfail : (hdr.fixed_key = false ∧ kp.available = false) ∨
             (hdr.version ≠ 0 ∧ hdr.version ≠ 1 ∧ hdr.version ≠ 2))
    (hjump : exh.system_info.jump_id &&& 0xFFFFFFFF ≠ hdr.program_id &&& 0xFFFFFFFF) :
    (Load self f kp eng).1 = .ErrorEncrypted ∧
    (Load self f kp eng).2.2.exheaderDecrypted = false ∧
    (Load self f kp eng).2.2.exefsHeaderDecrypted = false := by
  unfold Load
  rw [hload, hopen, hread]
  simp only [hmagic, ne_eq, not_true_eq_false, if_false, Bool.false_eq_true, ite_false, ite_true]
  rw [loadStep2_failed _ kp hcrypto hfail]
  rw [loadExheaderStep_encrypted_no_key _ f eng _ exh
    (loadStep2_is_encrypted _ kp hcrypto)
    (by rw [loadStep2_ncch]; exact hexsize) hexread
    (by rw [loadStep2_ncch]; exact hjump)]
  exact ⟨rfl, rfl, rfl⟩

/-- Witness for the amended C2 at a concrete container whose jump identifier
does not match. -/
def encNoKeyExhMismatch : ExHeader_Header := { system_info := { jump_id := 6 } }

/-- Concrete byte source for the amended-C2 witness. -/
def encNoKeyFileMismatch : FileInput :=
  { isOpen := true, ncchRead := some encNoKeyHdr, exheaderRead := some encNoKeyExhMismatch }

/-- Witness for the amended C2. -/
theorem load_encrypted_no_key_witness :
    (Load {} encNoKeyFileMismatch noKeyProvider idCryptoEngine).1 = .ErrorEncrypted ∧
    (Load {} encNoKeyFileMismatch noKeyProvider idCryptoEngine).2.2.exheaderDecrypted = false ∧
    (Load {} encNoKeyFileMismatch noKeyProvider idCryptoEngine).2.2.exefsHeaderDecrypted = false :=
  load_encrypted_no_key {} encNoKeyFileMismatch noKeyProvider idCryptoEngine
    encNoKeyHdr encNoKeyExhMismatch rfl rfl rfl (by decide) rfl (by decide) rfl
    (Or.inl ⟨rfl, rfl⟩) (by decide)

theorem loadExeFsStep_success (self : NCCHContainer) (f : FileInput)
    (eng : CryptoEngine) (tr : LoadTrace)
    (h : self.ncch_header.exefs_size = 0 ∨ ∃ eh, f.exefsRead = some eh) :
    (loadExeFsStep self f eng tr).1 = .Success := by
  unfold loadExeFsStep finishLoad
  rcases h with h | ⟨eh, h⟩
  · simp [h]
  · split
    · rw [h]
      dsimp only
      split <;> rfl
    · rfl

theorem loadExeFsStep_failedFlag (self : NCCHContainer) (f : FileInput)
    (eng : CryptoEngine) (tr : LoadTrace) :
    (loadExeFsStep self f eng tr).2.2.failed_to_decrypt = tr.failed_to_decrypt := by
  unfold loadExeFsStep finishLoad
  split
  · split
    · rfl
    · split <;> rfl
  · rfl

theorem loadExheaderStep_benign (self : NCCHContainer) (f : FileInput)
    (eng : CryptoEngine) (failed : Bool) (tr : LoadTrace)
    (hexr : self.ncch_header.extended_header_size = 0 ∨ ∃ exh, f.exheaderRead = some exh)
    (hcase : self.ncch_header.extended_header_size = 0 ∨ self.is_encrypted = false ∨
             (∃ exh, f.exheaderRead = some exh ∧
                exh.system_info.jump_id &&& 0xFFFFFFFF =
                  self.ncch_header.program_id &&& 0xFFFFFFFF))
    (hexefs : self.ncch_header.exefs_size = 0 ∨ ∃ eh, f.exefsRead = some eh) :
    (loadExheaderStep self f eng failed tr).1 = .Success ∧
    (loadExheaderStep self f eng failed tr).2.2.failed_to_decrypt = tr.failed_to_decrypt := by
  unfold loadExheaderStep
  rcases hcase with h0 | henc | ⟨exh, hx, hj⟩
  · simp only [h0, ne_eq, not_true_eq_false, if_false, ite_false]
    exact ⟨loadExeFsStep_success _ _ _ _ hexefs, loadExeFsStep_failedFlag _ _ _ _⟩
  · by_cases hs : self.ncch_header.extended_header_size = 0
    · simp only [hs, ne_eq, not_true_eq_false, if_false, ite_false]
      exact ⟨loadExeFsStep_success _ _ _ _ hexefs, loadExeFsStep_failedFlag _ _ _ _⟩
    · rcases hexr with h | ⟨exh, hx⟩
      · exact absurd h hs
      · rw [hx]
        simp only [hs, henc, ne_eq, not_false_eq_true, if_true, ite_true,
          Bool.false_eq_true, if_false, ite_false]
        exact ⟨loadExeFsStep_success _ _ _ _ hexefs, loadExeFsStep_failedFlag _ _ _ _⟩
  · by_cases hs : self.ncch_header.extended_header_size = 0
    · simp only [hs, ne_eq, not_true_eq_false, if_false, ite_false]
      exact ⟨loadExeFsStep_success _ _ _ _ hexefs, loadExeFsStep_failedFlag _ _ _ _⟩
    · rw [hx]
      by_cases henc : self.is_encrypted
      · simp only [hs, henc, hj, ne_eq, not_false_eq_true, if_true, ite_true]
        exact ⟨loadExeFsStep_success _ _ _ _ hexefs, loadExeFsStep_failedFlag _ _ _ _⟩
      · simp only [hs, henc, ne_eq, not_false_eq_true, if_true, Bool.false_eq_true,
          if_false, ite_false, ite_true]
        exact ⟨loadExeFsStep_success _ _ _ _ hexefs, loadExeFsStep_failedFlag _ _ _ _⟩

/-- C7: for a container whose format version is not 0, 1 or 2 (and whose
magic is valid), the unsupported-version condition is recorded as a pending
decrypt failure whenever the container is marked encrypted, parsing
continues, and `Load` still returns `Success` in every case where the
condition never blocks decryption of a present extended header: no extended
header declared, the container unencrypted, or self-correction reclassifying
it as plaintext (assuming the declared reads themselves succeed). -/
theorem load_unsupported_version (self : NCCHContainer) (f : FileInput)
    (kp : KeyProvider) (eng : CryptoEngine) (hdr : NCCH_Header)
    (hload : self.is_loaded = false) (hopen : f.isOpen = true)
    (hread : f.ncchRead = some hdr) (hmagic : hdr.magic = ncchMagic)
    (hver : hdr.version ≠ 0 ∧ hdr.version ≠ 1 ∧ hdr.version ≠ 2)
    (hexr : hdr.extended_header_size = 0 ∨ ∃ exh, f.exheaderRead = some exh)
    (hexefs : hdr.exefs_size = 0 ∨ ∃ eh, f.exefsRead = some eh)
    (hcase : hdr.extended_header_size = 0 ∨ hdr.no_crypto = true ∨
             (∃ exh, f.exheaderRead = some exh ∧
                exh.system_info.jump_id &&& 0xFFFFFFFF = hdr.program_id &&& 0xFFFFFFFF)) :
    (Load self f kp eng).1 = .Success ∧
    (hdr.no_crypto = false → (Load self f kp eng).2.2.failed_to_decrypt = true) := by
  unfold Load
  rw [hload, hopen, hread]
  simp only [hmagic, ne_eq, not_true_eq_false, if_false, Bool.false_eq_true, ite_false, ite_true]
  have hb := loadExheaderStep_benign
    (loadStep2 { self with is_loaded := false, ncch_header := hdr, has_header := true } kp).1 f eng
    (loadStep2 { self with is_loaded := false, ncch_header := hdr, has_header := true } kp).2
    { readPerformed := true,
      failed_to_decrypt :=
        (loadStep2 { self with is_loaded := false, ncch_header := hdr, has_header := true } kp).2 }
    (by rw [loadStep2_ncch]; exact hexr)
    (by
      rw [loadStep2_ncch]
      rcases hcase with h | h | h
      · exact Or.inl h
      · exact Or.inr (Or.inl (loadStep2_not_encrypted _ kp h))
      · exact Or.inr (Or.inr h))
    (by rw [loadStep2_ncch]; exact hexefs)
  refine ⟨hb.1, fun hcrypto => ?_⟩
  rw [hb.2]
  exact loadStep2_failed _ kp hcrypto (Or.inr hver)

/-- Concrete header for the C7 witness: unknown version 5, no extended
header and no section region declared. -/
def unsupVerHdr : NCCH_Header := { magic := ncchMagic, version := 5 }

/-- Concrete byte source for the C7 witness. -/
def unsupVerFile : FileInput := { isOpen := true, ncchRead := some unsupVerHdr }

/-- Witness for C7. -/
theorem load_unsupported_version_witness :
    (Load {} unsupVerFile idKeyProvider idCryptoEngine).1 = .Success ∧
    (unsupVerHdr.no_crypto = false →
      (Load {} unsupVerFile idKeyProvider idCryptoEngine).2.2.failed_to_decrypt = true) :=
  load_unsupported_version {} unsupVerFile idKeyProvider idCryptoEngine unsupVerHdr
    rfl rfl rfl (by decide) (by decide) (Or.inl rfl) (Or.inl rfl) (Or.inl rfl)

/-- C8: `Load` is idempotent: once a call has returned `Success`, every
subsequent call (against any byte source, key provider or engine) returns
`Success` with the state unchanged and an empty trace — no read is performed
and no parsed state is modified. -/
theorem load_idempotent (self : NCCHContainer) (f f2 : FileInput)
    (kp kp2 : KeyProvider) (eng eng2 : CryptoEngine)
    (h : (Load self f kp eng).1 = .Success) :
    Load (Load self f kp eng).2.1 f2 kp2 eng2 =
      (.Success, (Load self f kp eng).2.1, ({} : LoadTrace)) := by
  have hl := load_success_is_loaded self f kp eng h
  set s := (Load self f kp eng).2.1 with hs
  simp [Load, hl]

/-- Witness for C8 at a concrete successfully-loaded container. -/
theorem load_idempotent_witness :
    Load (Load {} closedFile idKeyProvider idCryptoEngine).2.1 closedFile
        idKeyProvider idCryptoEngine =
      (.Success, (Load {} closedFile idKeyProvider idCryptoEngine).2.1,
       ({} : LoadTrace)) :=
  load_idempotent {} closedFile closedFile idKeyProvider idKeyProvider
    idCryptoEngine idCryptoEngine (by decide)

/-- C9: when the byte source is not open, `Load` performs no read and parses
nothing, yet returns `Success` and marks the container loaded; afterwards
`ReadProgramId` fails with `ErrorNotUsed` (the spec's `NotFound`) and
`HasExeFS` / `HasExHeader` return `false`. -/
theorem load_closed_file (self : NCCHContainer) (f : FileInput)
    (kp : KeyProvider) (eng : CryptoEngine) (x : Nat)
    (hopen : f.isOpen = false) (hload : self.is_loaded = false)
    (hh : self.has_header = false) (hexe : self.has_exefs = false)
    (hexh : self.has_exheader = false) :
    Load self f kp eng = (.Success, { self with is_loaded := true }, ({} : LoadTrace)) ∧
    (ReadProgramId { self with is_loaded := true } f kp eng x).1 = .ErrorNotUsed ∧
    (ReadProgramId { self with is_loaded := true } f kp eng x).2.2 = x ∧
    HasExeFS { self with is_loaded := true } f kp eng = false ∧
    HasExHeader { self with is_loaded := true } f kp eng = false := by
  refine ⟨?_, ?_, ?_, ?_, ?_⟩ <;>
    simp [Load, finishLoad, ReadProgramId, HasExeFS, HasExHeader,
          hopen, hload, hh, hexe, hexh]

/-- Witness for C9 at a concrete fresh container with a closed file. -/
theorem load_closed_file_witness :
    Load {} closedFile idKeyProvider idCryptoEngine =
      (.Success, { is_loaded := true }, ({} : LoadTrace)) ∧
    (ReadProgramId { is_loaded := true } closedFile idKeyProvider idCryptoEngine 99).1 =
      .ErrorNotUsed ∧
    (ReadProgramId { is_loaded := true } closedFile idKeyProvider idCryptoEngine 99).2.2 = 99 ∧
    HasExeFS { is_loaded := true } closedFile idKeyProvider idCryptoEngine = false ∧
    HasExHeader { is_loaded := true } closedFile idKeyProvider idCryptoEngine = false :=
  load_closed_file {} closedFile idKeyProvider idCryptoEngine 99
    rfl rfl rfl rfl rfl

/-- C10: `ReadExtdataId` leaves its out-parameter unchanged on every
non-`Success` path (load failure, missing extended header, or all six
alternate identifiers zero). -/
theorem readExtdataId_failure_output_unchanged (self : NCCHContainer)
    (f : FileInput) (kp : KeyProvider) (eng : CryptoEngine) (x : Nat)
    (h : (ReadExtdataId self f kp eng x).1 ≠ .Success) :
    (ReadExtdataId self f kp eng x).2.2 = x := by
  revert h
  unfold ReadExtdataId
  dsimp only
  split
  · intro h; rfl
  · split
    · intro h; rfl
    · split
      · split
        · intro h; exact absurd rfl h
        · intro h; rfl
      · intro h; exact absurd rfl h

/-- Witness for C10 at a concrete failing input (no extended header). -/
theorem readExtdataId_failure_output_unchanged_witness :
    (ReadExtdataId {} closedFile idKeyProvider idCryptoEngine 123).2.2 = 123 :=
  readExtdataId_failure_output_unchanged {} closedFile idKeyProvider
    idCryptoEngine 123 (by decide)

theorem load_short_circuit (self : NCCHContainer) (f : FileInput)
    (kp : KeyProvider) (eng : CryptoEngine) (h : self.is_loaded = true) :
    Load self f kp eng = (.Success, self, {}) := by
  unfold Load
  rw [h]
  rfl

/-- Storage info for the C3 counterexample: attribute byte 1 (bit 0 set and
nothing else), alternate identifiers [0, 0, 7, 0, 0, 0], legacy identifier
42. -/
def attrOneStorage : StorageInfo :=
  { ext_save_data_id := 42, extdata_id2 := 7, other_attributes := 1 }

/-- A loaded container whose extended header carries `attrOneStorage`. -/
def attrOneContainer : NCCHContainer :=
  { is_loaded := true, has_exheader := true,
    exheader_header := { arm11_system_local_caps := { storage_info := attrOneStorage } } }

/-- Counterexample to C3 as stated: with attribute bit 0 set (byte value 1)
and alternate identifiers [0, 0, 7, 0, 0, 0] the claim demands the alternate
scan return 7, but the code branches on `other_attributes >> 1` (which is 0
here), takes the legacy branch, and returns the legacy identifier 42. -/
theorem readExtdataId_bit0_counterexample :
    attrOneStorage.other_attributes &&& 1 = 1 ∧
    attrOneStorage.extdata_id2 = 7 ∧ attrOneStorage.ext_save_data_id = 42 ∧
    (ReadExtdataId attrOneContainer closedFile idKeyProvider idCryptoEngine 0).2.2 = 42 ∧
    (ReadExtdataId attrOneContainer closedFile idKeyProvider idCryptoEngine 0).2.2 ≠ 7 := by
  decide

/-- C3 amended: `ReadExtdataId` branches on `other_attributes >>> 1` (some
attribute bit other than bit 0 set), not on bit 0: when the shifted value is
non-zero it returns the first non-zero of the six alternate extended-data
identifiers scanned in fixed index order (failing `ErrorNotUsed` when all
six are zero), and when it is zero it returns the single legacy
extended-save-data identifier unconditionally, even if that identifier is
zero. -/
theorem readExtdataId_branches (self : NCCHContainer) (f : FileInput)
    (kp : KeyProvider) (eng : CryptoEngine) (x : Nat)
    (si : StorageInfo) (ids : List Nat)
    (hload : self.is_loaded = true) (hexh : self.has_exheader = true)
    (hsi : si = self.exheader_header.arm11_system_local_caps.storage_info)
    (hids : ids = [si.extdata_id0, si.extdata_id1, si.extdata_id2,
                   si.extdata_id3, si.extdata_id4, si.extdata_id5]) :
    (si.other_attributes >>> 1 ≠ 0 →
       (∀ id, ids.find? (fun v => v != 0) = some id →
          ReadExtdataId self f kp eng x = (.Success, self, id)) ∧
       (ids.find? (fun v => v != 0) = none →
          ReadExtdataId self f kp eng x = (.ErrorNotUsed, self, x))) ∧
    (si.other_attributes >>> 1 = 0 →
       ReadExtdataId self f kp eng x = (.Success, self, si.ext_save_data_id)) := by
  subst hsi hids
  have hl := load_short_circuit self f kp eng hload
  unfold ReadExtdataId
  rw [hl]
  dsimp only
  simp only [hexh, Bool.not_true, Bool.false_eq_true, if_false, ite_false, ne_eq,
    not_true_eq_false, not_false_eq_true, ite_true]
  constructor
  · intro hattr
    simp only [hattr, not_false_eq_true, if_true, ite_true]
    constructor
    · intro id hfind
      rw [hfind]
    · intro hfind
      rw [hfind]
  · intro hattr
    simp only [hattr, not_true_eq_false, if_false, ite_false]

/-- Storage info for the amended-C3 witness: attribute byte 2, alternate
identifiers [0, 0, 7, 0, 0, 0], legacy identifier 42. -/
def attrTwoStorage : StorageInfo :=
  { ext_save_data_id := 42, extdata_id2 := 7, other_attributes := 2 }

/-- A loaded container whose extended header carries `attrTwoStorage`. -/
def attrTwoContainer : NCCHContainer :=
  { is_loaded := true, has_exheader := true,
    exheader_header := { arm11_system_local_caps := { storage_info := attrTwoStorage } } }

/-- Witness for the amended C3: attribute byte 2 with identifiers
[0, 0, 7, 0, 0, 0] yields 7. -/
theorem readExtdataId_branches_witness :
    ReadExtdataId attrTwoContainer closedFile idKeyProvider idCryptoEngine 0 =
      (.Success, attrTwoContainer, 7) :=
  ((readExtdataId_branches attrTwoContainer closedFile idKeyProvider idCryptoEngine 0
      attrTwoStorage [0, 0, 7, 0, 0, 0] rfl rfl rfl rfl).1 (by decide)).1 7 (by decide)

theorem list_len8 {α : Type _} {l : List α} (h : l.length = 8) :
    ∃ b0 b1 b2 b3 b4 b5 b6 b7, l = [b0, b1, b2, b3, b4, b5, b6, b7] := by
  rcases l with _ | ⟨b0, l⟩; · simp at h
  rcases l with _ | ⟨b1, l⟩; · simp at h
  rcases l with _ | ⟨b2, l⟩; · simp at h
  rcases l with _ | ⟨b3, l⟩; · simp at h
  rcases l with _ | ⟨b4, l⟩; · simp at h
  rcases l with _ | ⟨b5, l⟩; · simp at h
  rcases l with _ | ⟨b6, l⟩; · simp at h
  rcases l with _ | ⟨b7, l⟩; · simp at h
  rcases l with _ | ⟨b8, l⟩
  · exact ⟨b0, b1, b2, b3, b4, b5, b6, b7, rfl⟩
  · simp at h

/-- C4: IV derivation is the pure function `deriveCtrs` of (format version,
partition identifier, section-region media-unit offset), which `Load` calls
in `loadStep2`.  For versions 0 and 2 both IVs are the partition-identifier
bytes reversed into the first 8 bytes, byte index 8 equal to 1
(extended-header IV) or 2 (section-region IV), and every other byte zero.
For version 1 both IVs start with the partition identifier verbatim, and the
last four bytes are the big-endian 32-bit encoding of 0x200 for the
extended-header IV and of the section-region byte offset (media-unit offset
× 512) for the section-region IV; the final conjunct shows `u32ToBEArray`
really is the big-endian encoding (the four bytes recompose the value). -/
theorem deriveCtrs_spec (version : Nat) (pid : List Nat) (off : Nat)
    (hpid : pid.length = 8) (hoff : off * kBlockSize < 2 ^ 32) :
    ((version = 0 ∨ version = 2) →
       deriveCtrs version pid off =
         some (pid.reverse ++ 1 :: List.replicate 7 0,
               pid.reverse ++ 2 :: List.replicate 7 0)) ∧
    (version = 1 →
       deriveCtrs version pid off =
         some (pid ++ [0, 0, 0, 0] ++ u32ToBEArray 0x200,
               pid ++ [0, 0, 0, 0] ++ u32ToBEArray (off * kBlockSize))) ∧
    (∀ v, v < 2 ^ 32 →
       u32ToBEArray v = [v / 2 ^ 24, v / 2 ^ 16 % 256, v / 2 ^ 8 % 256, v % 256] ∧
       (v / 2 ^ 24) * 2 ^ 24 + (v / 2 ^ 16 % 256) * 2 ^ 16 + (v / 2 ^ 8 % 256) * 2 ^ 8
         + v % 256 = v) := by
  obtain ⟨b0, b1, b2, b3, b4, b5, b6, b7, rfl⟩ := list_len8 hpid
  refine ⟨?_, ?_, ?_⟩
  · rintro (rfl | rfl) <;> rfl
  · rintro rfl
    unfold deriveCtrs
    rw [Nat.mod_eq_of_lt hoff]
    rfl
  · intro v hv
    have h24 : v >>> 24 = v / 2 ^ 24 := Nat.shiftRight_eq_div_pow v 24
    have h16 : v >>> 16 = v / 2 ^ 16 := Nat.shiftRight_eq_div_pow v 16
    have h8 : v >>> 8 = v / 2 ^ 8 := Nat.shiftRight_eq_div_pow v 8
    have hlt : v / 2 ^ 24 < 256 := by omega
    constructor
    · unfold u32ToBEArray
      rw [h24, h16, h8, Nat.mod_eq_of_lt hlt]
    · omega

/-- Witness for C4 at partition identifier [1..8] and media-unit offset 3,
for versions 2 and 1. -/
theorem deriveCtrs_spec_witness :
    deriveCtrs 2 [1, 2, 3, 4, 5, 6, 7, 8] 3 =
      some ([1, 2, 3, 4, 5, 6, 7, 8].reverse ++ 1 :: List.replicate 7 0,
            [1, 2, 3, 4, 5, 6, 7, 8].reverse ++ 2 :: List.replicate 7 0) ∧
    deriveCtrs 1 [1, 2, 3, 4, 5, 6, 7, 8] 3 =
      some ([1, 2, 3, 4, 5, 6, 7, 8] ++ [0, 0, 0, 0] ++ u32ToBEArray 0x200,
            [1, 2, 3, 4, 5, 6, 7, 8] ++ [0, 0, 0, 0] ++ u32ToBEArray (3 * kBlockSize)) :=
  ⟨(deriveCtrs_spec 2 [1, 2, 3, 4, 5, 6, 7, 8] 3 (by decide) (by decide)).1 (Or.inr rfl),
   (deriveCtrs_spec 1 [1, 2, 3, 4, 5, 6, 7, 8] 3 (by decide) (by decide)).2.1 rfl⟩

/-- C5: for a loaded container with an open section file, `LoadSectionExeFS`
scans the up-to-8 descriptors in array order for the first exact name match;
on a match it reads exactly `size` bytes at absolute offset
`descriptor.offset + section-region offset + directory-header size`,
decrypting them (with the section-region IV, keystream advanced to
`descriptor.offset + directory-header size`) only when the container is
encrypted; with no match it fails with `ErrorNotUsed` (the spec's
`NotFound`). -/
theorem loadSectionExeFS_spec (ks : List Nat → List Nat → Nat → Nat)
    (self : NCCHContainer) (f : FileInput) (kp : KeyProvider) (eng : CryptoEngine)
    (data : List Nat) (name : String)
    (hload : self.is_loaded = true) (hopen : self.exefs_file_open = true) :
    (∀ sec, (self.exefs_header.sections.take kMaxSections).find?
        (fun s => s.name == name) = some sec →
      sec.offset + self.exefs_offset + exefsHeaderSize + sec.size ≤ data.length →
      LoadSectionExeFS ks self f kp eng data name =
        (.Success, self,
         if self.is_encrypted then
           ctrDecrypt ks self.primary_key self.exefs_ctr (sec.offset + exefsHeaderSize)
             ((data.drop (sec.offset + self.exefs_offset + exefsHeaderSize)).take sec.size)
         else
           (data.drop (sec.offset + self.exefs_offset + exefsHeaderSize)).take sec.size) ∧
      ((data.drop (sec.offset + self.exefs_offset + exefsHeaderSize)).take sec.size).length
        = sec.size) ∧
    ((self.exefs_header.sections.take kMaxSections).find? (fun s => s.name == name) = none →
      LoadSectionExeFS ks self f kp eng data name = (.ErrorNotUsed, self, [])) := by
  have hl := load_short_circuit self f kp eng hload
  constructor
  · intro sec hfind hlen
    constructor
    · unfold LoadSectionExeFS
      rw [hl]
      dsimp only
      simp only [hopen, Bool.not_true, Bool.false_eq_true, if_false, ite_false, ne_eq,
        not_true_eq_false, not_false_eq_true, ite_true]
      rw [hfind]
      unfold fileReadAt
      simp only [hlen, if_pos, ite_true]
      split <;> rfl
    · have hd : (data.drop (sec.offset + self.exefs_offset + exefsHeaderSize)).length
          = data.length - (sec.offset + self.exefs_offset + exefsHeaderSize) :=
        List.length_drop _ _
      rw [List.length_take, hd]
      omega
  · intro hnone
    unfold LoadSectionExeFS
    rw [hl]
    dsimp only
    simp only [hopen, Bool.not_true, Bool.false_eq_true, if_false, ite_false, ne_eq,
      not_true_eq_false, not_false_eq_true, ite_true]
    rw [hnone]

/-- An encrypted loaded container with two sections, for the C5 witness. -/
def sectionContainer : NCCHContainer :=
  { is_loaded := true, exefs_file_open := true, exefs_offset := 0, is_encrypted := true,
    exefs_header := { sections := [⟨"icon", 0, 10⟩, ⟨"banner", 10, 20⟩] } }

/-- A concrete keystream for the C5 witness. -/
def witnessKs : List Nat → List Nat → Nat → Nat := fun _ _ n => n % 256

/-- Concrete backing bytes for the C5 witness. -/
def sectionData : List Nat := List.range 600

/-- Witness for C5: "banner" is found at absolute offset 10 + 0 + 0x200 and
its 20 bytes are decrypted at keystream offset 10 + 0x200. -/
theorem loadSectionExeFS_spec_witness :
    LoadSectionExeFS witnessKs sectionContainer closedFile idKeyProvider idCryptoEngine
        sectionData "banner" =
      (.Success, sectionContainer,
       if sectionContainer.is_encrypted then
         ctrDecrypt witnessKs sectionContainer.primary_key sectionContainer.exefs_ctr
           (10 + exefsHeaderSize)
           ((sectionData.drop (10 + sectionContainer.exefs_offset + exefsHeaderSize)).take 20)
       else
         (sectionData.drop (10 + sectionContainer.exefs_offset + exefsHeaderSize)).take 20) :=
  ((loadSectionExeFS_spec witnessKs sectionContainer closedFile idKeyProvider idCryptoEngine
      sectionData "banner" rfl rfl).1 ⟨"banner", 10, 20⟩ (by decide) (by decide)).1

theorem alignUp_spec (v s : Nat) (hs : 0 < s) :
    v ≤ alignUp v s ∧ alignUp v s < v + s ∧ alignUp v s % s = 0 := by
  unfold alignUp
  refine ⟨?_, ?_, Nat.mul_mod_left _ s⟩
  · rcases Nat.eq_zero_or_pos v with rfl | hv
    · exact Nat.zero_le _
    · have hstep : (v + s - 1) / s = (v - 1) / s + 1 := by
        have hvs : v + s - 1 = (v - 1) + s := by omega
        rw [hvs, Nat.add_div_right _ hs]
      rw [hstep, Nat.add_mul, Nat.one_mul]
      have hm := Nat.mod_add_div' (v - 1) s
      have hlt : (v - 1) % s < s := Nat.mod_lt _ hs
      generalize ht : (v - 1) / s * s = t at hm ⊢
      generalize hm2 : (v - 1) % s = m at hm hlt
      omega
  · have h := Nat.div_mul_le_self (v + s - 1) s
    generalize ht : (v + s - 1) / s * s = t at h ⊢
    omega

/-- C6: on a buffer whose integrity-tree header at the nested-image offset
(media-unit offset × 512) is valid, `LoadSharedRomFS` returns exactly
`level[2].size` bytes copied unmodified (no decryption) from payload offset
= nested-image offset + round-up(header size + master-hash byte count,
2^`level[2].block_size`); with master-hash count 0 and block exponent 9 the
round-up of the 0x60-byte header size is 512; the last conjunct shows
`alignUp` really rounds up to a multiple. -/
theorem loadSharedRomFS_spec (parseNCCH : List Nat → NCCH_Header)
    (parseIVFC : List Nat → RomFSIVFCHeader) (data : List Nat)
    (offset : Nat) (ivfc : RomFSIVFCHeader) (lvl2 : LevelDescriptor)
    (h1 : ncchHeaderSize ≤ data.length)
    (hoff : offset = (parseNCCH (data.take ncchHeaderSize)).romfs_offset * 0x200)
    (h2 : offset + ivfcHeaderSize ≤ data.length)
    (hivfc : ivfc = parseIVFC ((data.drop offset).take ivfcHeaderSize))
    (hmagic : ivfc.magic = ivfcMagic) (hver : ivfc.version = 0x10000)
    (hlvl : ivfc.levels.getD 2 {} = lvl2)
    (h3 : offset + alignUp (ivfcHeaderSize + ivfc.master_hash_size) (2 ^ lvl2.block_size)
            + lvl2.size ≤ data.length) :
    LoadSharedRomFS parseNCCH parseIVFC data =
      some ((data.drop
        (offset + alignUp (ivfcHeaderSize + ivfc.master_hash_size)
          (2 ^ lvl2.block_size))).take lvl2.size) ∧
    ((data.drop (offset + alignUp (ivfcHeaderSize + ivfc.master_hash_size)
        (2 ^ lvl2.block_size))).take lvl2.size).length = lvl2.size ∧
    (ivfc.master_hash_size = 0 → lvl2.block_size = 9 →
       alignUp (ivfcHeaderSize + ivfc.master_hash_size) (2 ^ lvl2.block_size) = 512) ∧
    (∀ v s, 0 < s → v ≤ alignUp v s ∧ alignUp v s < v + s ∧ alignUp v s % s = 0) := by
  refine ⟨?_, ?_, ?_, fun v s hs => alignUp_spec v s hs⟩
  · unfold LoadSharedRomFS
    dsimp only
    rw [← hoff, ← hivfc, hlvl]
    simp only [h1, h2, h3, hmagic, hver, and_true, true_and, if_pos, ite_true, if_true]
  · rw [List.length_take, List.length_drop]
    omega
  · intro hmh hbs
    rw [hmh, hbs]
    decide

/-- Constant outer-header decode for the C6 witness (nested image at media
unit 0). -/
def romfsParseNCCH : List Nat → NCCH_Header := fun _ => { romfs_offset := 0 }

/-- Constant integrity-tree decode for the C6 witness: valid magic/version,
master-hash count 0, `level[2] = {size := 4, block exponent := 9}`. -/
def romfsParseIVFC : List Nat → RomFSIVFCHeader := fun _ =>
  { magic := ivfcMagic, version := 0x10000, master_hash_size := 0,
    levels := [{}, {}, { size := 4, block_size := 9 }] }

/-- Concrete image bytes for the C6 witness. -/
def romfsData : List Nat := List.range 520

/-- Witness for C6: the 4 payload bytes start at 0 + round_up(0x60, 512) =
512. -/
theorem loadSharedRomFS_spec_witness :
    LoadSharedRomFS romfsParseNCCH romfsParseIVFC romfsData =
      some ((romfsData.drop 512).take 4) :=
  (loadSharedRomFS_spec romfsParseNCCH romfsParseIVFC romfsData 0 (romfsParseIVFC [])
      { offset := 0, size := 4, block_size := 9 }
      (by decide) rfl (by decide) rfl rfl rfl rfl (by decide)).1

end Core
